import Mathlib

/-!
Shallow embedding of `src/dr_orchestrator.py` (multi-cloud database disaster
recovery orchestrator) and proofs about its node model, failover state
machine, metrics ring buffer and status reporter.

External driver calls (psycopg2 connections, SQL queries, `pg_promote`) are
modelled as oracle inputs: each operation that talks to the database takes the
driver's answer as an explicit argument (`Bool` for success/failure of an
action, `Except Unit _` for a query that may raise, `Option _` for a value
that may be SQL NULL).  Durations (replication lag, Python floats) are
modelled as `Rat`.
-/

/-- One database node, mirroring `DatabaseNode.__init__`.  `hasConnection`
models `self.connection is not None and not self.connection.closed`. -/
structure DatabaseNode where
  name : String
  host : String
  port : Nat
  user : String
  password : String
  database : String
  is_primary : Bool
  is_healthy : Bool
  hasConnection : Bool
  replication_lag : Rat
deriving Repr, DecidableEq

/-- `DatabaseNode.__init__`: fresh node, standby, healthy, no connection,
zero lag. -/
def DatabaseNode.init (name host : String) (port : Nat)
    (user password database : String) : DatabaseNode :=
  { name := name, host := host, port := port, user := user,
    password := password, database := database,
    is_primary := false, is_healthy := true,
    hasConnection := false, replication_lag := 0 }

/-- `DatabaseNode.connect`: on driver success stores the new connection and
returns `True` (health flag untouched); on driver failure marks the node
unhealthy and returns `False` (the old connection field is left as it was,
since the exception is raised before the assignment). -/
def DatabaseNode.connect (node : DatabaseNode) (connectOk : Bool) :
    Bool × DatabaseNode :=
  if connectOk then (true, { node with hasConnection := true })
  else (false, { node with is_healthy := false })

/-- `DatabaseNode.health_check`: with no usable connection it delegates to
`connect`; otherwise it probes with `SELECT 1` (oracle `probeOk`), setting
`is_healthy` from the probe's outcome. -/
def DatabaseNode.health_check (node : DatabaseNode) (connectOk probeOk : Bool) :
    Bool × DatabaseNode :=
  if !node.hasConnection then node.connect connectOk
  else if probeOk then (true, { node with is_healthy := true })
  else (false, { node with is_healthy := false })

/-- `DatabaseNode.get_replication_lag`: returns `0.0` at once for a primary.
For a standby, the driver either raises (`Except.error`) — then the stored
lag is left unchanged and `0.0` is returned — or yields a row whose value may
be SQL NULL (`Option Rat`); `lag if lag else 0.0` collapses NULL (and `0.0`
itself) to `0.0`, i.e. `Option.getD 0`, which is stored and returned. -/
def DatabaseNode.get_replication_lag (node : DatabaseNode)
    (queryResult : Except Unit (Option Rat)) : Rat × DatabaseNode :=
  if node.is_primary then (0, node)
  else
    match queryResult with
    | Except.ok lagRow =>
        let node' := { node with replication_lag := lagRow.getD 0 }
        (node'.replication_lag, node')
    | Except.error _ => (0, node)

/-- `DatabaseNode.promote_to_primary`: on driver success (`SELECT
pg_promote()`) sets `is_primary := true` and returns `True`; on failure
returns `False` with the node unchanged.  The stored `replication_lag` is
not touched in either case. -/
def DatabaseNode.promote_to_primary (node : DatabaseNode) (promoteOk : Bool) :
    Bool × DatabaseNode :=
  if promoteOk then (true, { node with is_primary := true })
  else (false, node)

/-- Raw row returned by the `pg_stat_database` query in
`DatabaseNode.get_stats`. -/
structure StatsRow where
  numbackends : Int
  xact_commit : Int
  xact_rollback : Int
  blks_read : Int
  blks_hit : Int
deriving Repr, DecidableEq

/-- The dictionary built by `DatabaseNode.get_stats` on success. -/
structure Stats where
  active_connections : Int
  transactions_committed : Int
  transactions_rolled_back : Int
  blocks_read : Int
  blocks_hit : Int
  cache_hit_ratio : Rat
deriving Repr, DecidableEq

/-- `DatabaseNode.get_stats`: on query failure returns the empty dict
(`none`); on success builds the stats record, with
`cache_hit_ratio = blks_hit / (blks_read + blks_hit) * 100` guarded against
a zero denominator. -/
def DatabaseNode.get_stats (queryResult : Option StatsRow) : Option Stats :=
  match queryResult with
  | none => none
  | some r =>
      some { active_connections := r.numbackends,
             transactions_committed := r.xact_commit,
             transactions_rolled_back := r.xact_rollback,
             blocks_read := r.blks_read,
             blocks_hit := r.blks_hit,
             cache_hit_ratio :=
               if 0 < r.blks_read + r.blks_hit then
                 (r.blks_hit : Rat) / ((r.blks_read : Rat) + (r.blks_hit : Rat)) * 100
               else 0 }

/-- One entry of the metrics history, mirroring the dict built in
`log_metrics`.  `stats = none` models the case where `get_stats` returned
the empty dict, so no driver counters were merged into the snapshot. -/
structure MetricSnapshot where
  timestamp : Nat
  node : String
  is_primary : Bool
  is_healthy : Bool
  replication_lag : Rat
  stats : Option Stats
deriving Repr, DecidableEq

/-- `DisasterRecoveryOrchestrator.__init__`.  `primary_node` is a lookup by
position into `nodes` (the Python attribute is an object reference into the
same list). -/
structure DisasterRecoveryOrchestrator where
  nodes : List DatabaseNode
  primary_node : Option Nat
  monitoring : Bool
  failover_in_progress : Bool
  metrics : List MetricSnapshot
deriving Repr, DecidableEq

/-- Fresh orchestrator, as built by `DisasterRecoveryOrchestrator.__init__`. -/
def DisasterRecoveryOrchestrator.init : DisasterRecoveryOrchestrator :=
  { nodes := [], primary_node := none, monitoring := true,
    failover_in_progress := false, metrics := [] }

/-- `DisasterRecoveryOrchestrator.add_node`: appends the node; if it is
primary, `primary_node` is pointed at it. -/
def DisasterRecoveryOrchestrator.add_node (c : DisasterRecoveryOrchestrator)
    (node : DatabaseNode) : DisasterRecoveryOrchestrator :=
  let c' := { c with nodes := c.nodes ++ [node] }
  if node.is_primary then { c' with primary_node := some c.nodes.length } else c'

/-- The snapshot dict assembled for one node in `log_metrics`. -/
def mkSnapshot (ts : Nat) (n : DatabaseNode) (stats : Option Stats) :
    MetricSnapshot :=
  { timestamp := ts, node := n.name, is_primary := n.is_primary,
    is_healthy := n.is_healthy, replication_lag := n.replication_lag,
    stats := stats }

/-- `self.metrics.append(metric)` followed by the cap
`if len(self.metrics) > 100: self.metrics = self.metrics[-100:]`. -/
def metricsAppend (metrics : List MetricSnapshot) (m : MetricSnapshot) :
    List MetricSnapshot :=
  if 100 < (metrics ++ [m]).length then
    (metrics ++ [m]).drop ((metrics ++ [m]).length - 100)
  else metrics ++ [m]

/-- The per-node loop of `log_metrics`, walking the node list with its
positions; `statsResults i` is the driver's answer to node `i`'s stats
query this tick. -/
def log_metrics_go (ts : Nat) (statsResults : Nat → Option StatsRow) :
    List (Nat × DatabaseNode) → List MetricSnapshot → List MetricSnapshot
  | [], ms => ms
  | (i, n) :: rest, ms =>
      if n.is_healthy then
        log_metrics_go ts statsResults rest
          (metricsAppend ms (mkSnapshot ts n (DatabaseNode.get_stats (statsResults i))))
      else log_metrics_go ts statsResults rest ms

/-- `DisasterRecoveryOrchestrator.log_metrics`: one monitoring tick's metrics
phase. -/
def DisasterRecoveryOrchestrator.log_metrics (c : DisasterRecoveryOrchestrator)
    (ts : Nat) (statsResults : Nat → Option StatsRow) :
    DisasterRecoveryOrchestrator :=
  { c with metrics := log_metrics_go ts statsResults c.nodes.enum c.metrics }

/-- Per-node entry of the status dict. -/
structure NodeStatus where
  name : String
  is_primary : Bool
  is_healthy : Bool
  replication_lag : Rat
deriving Repr, DecidableEq

/-- The dict returned by `get_cluster_status`. -/
structure ClusterStatus where
  timestamp : Nat
  primary : Option String
  total_nodes : Nat
  healthy_nodes : Nat
  nodes : List NodeStatus
deriving Repr, DecidableEq

/-- `DisasterRecoveryOrchestrator.get_cluster_status`: read-only projection
of the cluster. -/
def DisasterRecoveryOrchestrator.get_cluster_status
    (c : DisasterRecoveryOrchestrator) (ts : Nat) : ClusterStatus :=
  { timestamp := ts,
    primary := c.primary_node.bind (fun i => (c.nodes.get? i).map DatabaseNode.name),
    total_nodes := c.nodes.length,
    healthy_nodes := c.nodes.countP (fun n => n.is_healthy),
    nodes := c.nodes.map (fun n =>
      { name := n.name, is_primary := n.is_primary,
        is_healthy := n.is_healthy, replication_lag := n.replication_lag }) }

/-- Positions of the eligible failover targets:
`[n for n in self.nodes if not n.is_primary and n.is_healthy]`.  Python keeps
object references; positions into the registry play the role of object
identity here, and the filtered `range` keeps them in registry order. -/
def eligible_standbys (nodes : List DatabaseNode) : List Nat :=
  (List.range nodes.length).filter (fun i =>
    match nodes.get? i with
    | some n => !n.is_primary && n.is_healthy
    | none => false)

/-- Replication lag of the node at a registry position (total helper). -/
def lagAt (nodes : List DatabaseNode) (i : Nat) : Rat :=
  match nodes.get? i with
  | some n => n.replication_lag
  | none => 0

/-- `standbys.sort(key=lambda x: x.replication_lag)`: Python's `list.sort` is
a stable ascending sort, modelled by the stable `List.mergeSort`. -/
def sorted_standbys (nodes : List DatabaseNode) : List Nat :=
  (eligible_standbys nodes).mergeSort (fun i j => decide (lagAt nodes i ≤ lagAt nodes j))

/-- In-place mutation of one node object of the registry. -/
def setNode (c : DisasterRecoveryOrchestrator) (i : Nat) (n : DatabaseNode) :
    DisasterRecoveryOrchestrator :=
  { c with nodes := c.nodes.set i n }

/-- The catch-up polling loop of `trigger_failover`:
`while new_primary.replication_lag > 1.0 and waited < max_wait` with
`max_wait = 30`, each pass sleeping 2s, re-measuring the candidate's lag
(`lagResults iter` is the driver's answer to the `iter`-th re-measurement)
and adding 2 to `waited`.  The guard lets the body run at most 15 times
from `waited = 0`, so any fuel of at least 15 makes this recursion agree
with the Python loop; the caller passes 16.  Returns the cluster, the final
poll count and `waited`, and the trace of cluster states after each
mutation of the candidate's lag field. -/
def catchup_wait (idx : Nat) (lagResults : Nat → Except Unit (Option Rat)) :
    Nat → DisasterRecoveryOrchestrator → Nat → Nat →
    DisasterRecoveryOrchestrator × Nat × Nat × List DisasterRecoveryOrchestrator
  | 0, c, iter, waited => (c, iter, waited, [])
  | fuel + 1, c, iter, waited =>
      match c.nodes.get? idx with
      | none => (c, iter, waited, [])
      | some node =>
          if 1 < node.replication_lag ∧ waited < 30 then
            let c' := setNode c idx (node.get_replication_lag (lagResults iter)).2
            let r := catchup_wait idx lagResults fuel c' (iter + 1) (waited + 2)
            (r.1, r.2.1, r.2.2.1, c' :: r.2.2.2)
          else (c, iter, waited, [])

/-- Observable events of one `trigger_failover` run. -/
structure FailoverEvents where
  guarded : Bool
  aborted_no_standby : Bool
  selected : Option Nat
  iterations : Nat
  waited : Nat
  promote_invoked : Bool
  promote_succeeded : Bool
deriving Repr, DecidableEq

/-- `DisasterRecoveryOrchestrator.trigger_failover`, instrumented with an
explicit trace of every intermediate cluster state (one entry after each
mutation of the shared orchestrator/node state) and the run's observable
events.  `lagResults` answers the catch-up loop's lag re-measurements;
`promoteOk` is the driver's answer to `pg_promote()`.  The branch where the
selected position has no node is unreachable for positions produced by
`sorted_standbys` and mirrors the failure terminal. -/
def DisasterRecoveryOrchestrator.trigger_failover
    (c : DisasterRecoveryOrchestrator)
    (lagResults : Nat → Except Unit (Option Rat)) (promoteOk : Bool) :
    DisasterRecoveryOrchestrator × List DisasterRecoveryOrchestrator × FailoverEvents :=
  if c.failover_in_progress then
    (c, [], { guarded := true, aborted_no_standby := false, selected := none,
              iterations := 0, waited := 0, promote_invoked := false,
              promote_succeeded := false })
  else
    let c1 : DisasterRecoveryOrchestrator := { c with failover_in_progress := true }
    match sorted_standbys c1.nodes with
    | [] =>
        let c2 : DisasterRecoveryOrchestrator := { c1 with failover_in_progress := false }
        (c2, [c1, c2],
         { guarded := false, aborted_no_standby := true, selected := none,
           iterations := 0, waited := 0, promote_invoked := false,
           promote_succeeded := false })
    | idx :: _ =>
        let r := catchup_wait idx lagResults 16 c1 0 0
        let c2 := r.1
        match c2.nodes.get? idx with
        | none =>
            let c3 : DisasterRecoveryOrchestrator :=
              { c2 with failover_in_progress := false }
            (c3, c1 :: (r.2.2.2 ++ [c3]),
             { guarded := false, aborted_no_standby := false, selected := some idx,
               iterations := r.2.1, waited := r.2.2.1, promote_invoked := false,
               promote_succeeded := false })
        | some cand =>
            if (cand.promote_to_primary promoteOk).1 then
              let c3 := setNode c2 idx (cand.promote_to_primary promoteOk).2
              let c4 : DisasterRecoveryOrchestrator :=
                { c3 with primary_node := some idx }
              let c5 : DisasterRecoveryOrchestrator :=
                match c2.primary_node with
                | some old =>
                    match c4.nodes.get? old with
                    | some onode => setNode c4 old { onode with is_primary := false }
                    | none => c4
                | none => c4
              let c6 : DisasterRecoveryOrchestrator :=
                { c5 with failover_in_progress := false }
              (c6, c1 :: (r.2.2.2 ++ [c3, c4, c5, c6]),
               { guarded := false, aborted_no_standby := false, selected := some idx,
                 iterations := r.2.1, waited := r.2.2.1, promote_invoked := true,
                 promote_succeeded := true })
            else
              let c3 : DisasterRecoveryOrchestrator :=
                { c2 with failover_in_progress := false }
              (c3, c1 :: (r.2.2.2 ++ [c3]),
               { guarded := false, aborted_no_standby := false, selected := some idx,
                 iterations := r.2.1, waited := r.2.2.1, promote_invoked := true,
                 promote_succeeded := false })

/-- Number of registry nodes currently holding the Primary role. -/
def primaryCount (c : DisasterRecoveryOrchestrator) : Nat :=
  c.nodes.countP (fun n => n.is_primary)

/-- The per-node `is_primary` flags of the registry, in order. -/
def rolesOf (c : DisasterRecoveryOrchestrator) : List Bool :=
  c.nodes.map (fun n => n.is_primary)

/-- A sample snapshot used in concrete runs. -/
def sampleSnapshot (k : Nat) : MetricSnapshot :=
  mkSnapshot k (DatabaseNode.init "n" "h" 5432 "u" "p" "d") none

/-- A healthy standby used in concrete runs (`S1`, connected, lag 0). -/
def nodeS1 : DatabaseNode :=
  { DatabaseNode.init "S1" "h" 5436 "u" "p" "d" with hasConnection := true }

/-- A one-node orchestrator used in concrete runs. -/
def oneNodeOrch : DisasterRecoveryOrchestrator :=
  DisasterRecoveryOrchestrator.init.add_node nodeS1

/-- A primary node (`P`) that has been observed unhealthy. -/
def nodeP : DatabaseNode :=
  { DatabaseNode.init "P" "h" 5435 "u" "p" "d" with
    is_primary := true, is_healthy := false, hasConnection := true }

/-- A healthy standby with lag 0.5s. -/
def nodeS2 : DatabaseNode :=
  { DatabaseNode.init "S2" "h" 5437 "u" "p" "d" with
    hasConnection := true, replication_lag := mkRat 1 2 }

/-- Two-node cluster: unhealthy primary `P`, healthy standby `S2` (lag
0.5s). -/
def demoOrch : DisasterRecoveryOrchestrator :=
  (DisasterRecoveryOrchestrator.init.add_node nodeP).add_node nodeS2

/-- A healthy standby stuck at lag 5.0s. -/
def nodeS5 : DatabaseNode :=
  { DatabaseNode.init "S5" "h" 5438 "u" "p" "d" with
    hasConnection := true, replication_lag := 5 }

/-- Two-node cluster: unhealthy primary `P`, healthy standby `S5` whose lag
stays at 5.0s. -/
def slowOrch : DisasterRecoveryOrchestrator :=
  (DisasterRecoveryOrchestrator.init.add_node nodeP).add_node nodeS5

/-- Healthy standby `A` with lag 2s. -/
def nodeA : DatabaseNode :=
  { DatabaseNode.init "A" "h" 5441 "u" "p" "d" with
    hasConnection := true, replication_lag := 2 }

/-- Healthy standby `B` with lag 1s (the lowest healthy lag). -/
def nodeB : DatabaseNode :=
  { DatabaseNode.init "B" "h" 5442 "u" "p" "d" with
    hasConnection := true, replication_lag := 1 }

/-- Unhealthy standby `C` with lag 0s (lowest lag but not eligible). -/
def nodeC : DatabaseNode :=
  { DatabaseNode.init "C" "h" 5443 "u" "p" "d" with
    hasConnection := true, is_healthy := false, replication_lag := 0 }

/-- Four-node selection cluster: unhealthy primary `P` and standbys `A`, `B`,
`C` as in the spec's selection scenario. -/
def selOrch : DisasterRecoveryOrchestrator :=
  (((DisasterRecoveryOrchestrator.init.add_node nodeP).add_node nodeA).add_node
    nodeB).add_node nodeC

unseal List.merge List.mergeSort

/-- While there is still room (at most 99 entries), the cap step is a plain
append. -/
theorem metricsAppend_no_evict (ms : List MetricSnapshot) (m : MetricSnapshot)
    (h : ms.length ≤ 99) : metricsAppend ms m = ms ++ [m] := by
  have hc : ¬ 100 < (ms ++ [m]).length := by simp; omega
  unfold metricsAppend
  rw [if_neg hc]

/-- Claim C4: for a standby node whose lag query fails, `get_replication_lag`
leaves the node — in particular its stored `replication_lag` — completely
unchanged: the stale value is retained, not reset to 0. -/
theorem C4_failed_probe_retains_stored_lag (node : DatabaseNode)
    (hstandby : node.is_primary = false) :
    (node.get_replication_lag (Except.error ())).2 = node ∧
    (node.get_replication_lag (Except.error ())).2.replication_lag
      = node.replication_lag := by
  simp [DatabaseNode.get_replication_lag, hstandby]

/-- Witness for C4 at the spec's stale-lag scenario: a standby holding lag
0.4s whose probe fails still reads 0.4s afterwards. -/
theorem C4_failed_probe_retains_stored_lag_witness :
    ((DatabaseNode.init "S1" "h" 5432 "u" "p" "d").is_primary = false) ∧
    (({ DatabaseNode.init "S1" "h" 5432 "u" "p" "d" with
        replication_lag := (2 : Rat)/5 }).get_replication_lag
          (Except.error ())).2.replication_lag = (2 : Rat)/5 :=
  ⟨rfl, (C4_failed_probe_retains_stored_lag
      { DatabaseNode.init "S1" "h" 5432 "u" "p" "d" with
        replication_lag := (2 : Rat)/5 } rfl).2⟩

/-- Claim C10: for a standby node whose lag query fails, the value returned
by `get_replication_lag` is `0.0` while the stored field keeps its previous
value, so a direct caller sees 0 rather than the retained stale lag. -/
theorem C10_failed_probe_returns_zero_but_keeps_field (node : DatabaseNode)
    (hstandby : node.is_primary = false) :
    (node.get_replication_lag (Except.error ())).1 = 0 ∧
    (node.get_replication_lag (Except.error ())).2.replication_lag
      = node.replication_lag := by
  simp [DatabaseNode.get_replication_lag, hstandby]

/-- Witness for C10: a standby with stored lag 0.4s; the failed probe returns
0 while the field still holds 0.4s (they diverge). -/
theorem C10_failed_probe_returns_zero_but_keeps_field_witness :
    (({ DatabaseNode.init "S1" "h" 5432 "u" "p" "d" with
        replication_lag := (2 : Rat)/5 }).get_replication_lag
          (Except.error ())).1 = 0 ∧
    (({ DatabaseNode.init "S1" "h" 5432 "u" "p" "d" with
        replication_lag := (2 : Rat)/5 }).get_replication_lag
          (Except.error ())).2.replication_lag = (2 : Rat)/5 :=
  C10_failed_probe_returns_zero_but_keeps_field
    { DatabaseNode.init "S1" "h" 5432 "u" "p" "d" with
      replication_lag := (2 : Rat)/5 } rfl

/-- Claim C8 counterexample: an unhealthy node with no usable connection whose
reconnect succeeds — `health_check` returns `True` via the delegated
`connect` path, yet `connect` only touches `is_healthy` on failure, so the
node is still marked unhealthy after a `True` return. -/
theorem C8_counterexample :
    (({ DatabaseNode.init "n0" "h" 5432 "u" "p" "d" with
        is_healthy := false }).health_check true true).1 = true ∧
    (({ DatabaseNode.init "n0" "h" 5432 "u" "p" "d" with
        is_healthy := false }).health_check true true).2.is_healthy = false :=
  ⟨rfl, rfl⟩

/-- Claim C8 amended: a `False` return from `health_check` always leaves the
node marked Unhealthy; a `True` return sets the node Healthy on the
direct-probe path, but on the delegated reconnect path (no usable
connection) a successful `connect` leaves `is_healthy` unchanged rather
than setting it Healthy. -/
theorem C8_health_check_sets_health (node : DatabaseNode)
    (connectOk probeOk : Bool) :
    ((node.health_check connectOk probeOk).1 = false →
      (node.health_check connectOk probeOk).2.is_healthy = false) ∧
    (node.hasConnection = true →
      (node.health_check connectOk probeOk).1 = true →
      (node.health_check connectOk probeOk).2.is_healthy = true) ∧
    (node.hasConnection = false →
      (node.health_check connectOk probeOk).1 = true →
      (node.health_check connectOk probeOk).2.is_healthy = node.is_healthy) := by
  rcases node with ⟨name, host, port, user, password, database, prim, hl, conn, lag⟩
  cases conn <;> cases connectOk <;> cases probeOk <;>
    simp [DatabaseNode.health_check, DatabaseNode.connect]

/-- Witness for C8 amended: on a connected node an unsuccessful probe returns
`False` and marks the node Unhealthy. -/
theorem C8_health_check_sets_health_witness :
    (({ DatabaseNode.init "n0" "h" 5432 "u" "p" "d" with
        hasConnection := true }).health_check true false).1 = false ∧
    (({ DatabaseNode.init "n0" "h" 5432 "u" "p" "d" with
        hasConnection := true }).health_check true false).2.is_healthy = false :=
  ⟨rfl, (C8_health_check_sets_health
    { DatabaseNode.init "n0" "h" 5432 "u" "p" "d" with hasConnection := true }
    true false).1 rfl⟩

/-- Claim C9: an append to a history of at most 100 entries never leaves more
than 100 entries, and an append to a full history of exactly 100 entries
evicts precisely the oldest entry: the result is the old tail followed by
the new entry (entry 1 is evicted, not entry N). -/
theorem C9_metrics_history_capped_fifo (ms : List MetricSnapshot)
    (m : MetricSnapshot) (h : ms.length ≤ 100) :
    (metricsAppend ms m).length ≤ 100 ∧
    (ms.length = 100 → metricsAppend ms m = ms.tail ++ [m]) := by
  constructor
  · unfold metricsAppend
    by_cases hc : 100 < (ms ++ [m]).length
    · rw [if_pos hc]; simp; omega
    · rw [if_neg hc]; simp at hc ⊢; omega
  · intro h100
    have hc : 100 < (ms ++ [m]).length := by simp [h100]
    unfold metricsAppend
    rw [if_pos hc]
    have hlen : (ms ++ [m]).length - 100 = 1 := by simp [h100]
    rw [hlen, List.drop_append_eq_append_drop]
    simp [List.drop_one, h100]

/-- Witness for C9 on a full history of 100 identical snapshots: the append
keeps the length at 100 and the result is the old tail plus the new entry. -/
theorem C9_metrics_history_capped_fifo_witness :
    (List.replicate 100 (sampleSnapshot 0)).length ≤ 100 ∧
    (metricsAppend (List.replicate 100 (sampleSnapshot 0)) (sampleSnapshot 1)).length ≤ 100 ∧
    metricsAppend (List.replicate 100 (sampleSnapshot 0)) (sampleSnapshot 1)
      = (List.replicate 100 (sampleSnapshot 0)).tail ++ [sampleSnapshot 1] :=
  ⟨by simp,
   (C9_metrics_history_capped_fifo (List.replicate 100 (sampleSnapshot 0))
     (sampleSnapshot 1) (by simp)).1,
   (C9_metrics_history_capped_fifo (List.replicate 100 (sampleSnapshot 0))
     (sampleSnapshot 1) (by simp)).2 (by simp)⟩

/-- As long as the history never fills up, entries already present survive
the rest of the metrics pass. -/
theorem log_metrics_go_preserves_mem (ts : Nat) (sr : Nat → Option StatsRow) :
    ∀ (l : List (Nat × DatabaseNode)) (ms : List MetricSnapshot),
    ms.length + l.length ≤ 100 →
    ∀ x ∈ ms, x ∈ log_metrics_go ts sr l ms := by
  intro l
  induction l with
  | nil => intro ms _ x hx; simpa [log_metrics_go] using hx
  | cons p rest ih =>
      intro ms hroom x hx
      obtain ⟨i, n⟩ := p
      by_cases hh : n.is_healthy
      · have h99 : ms.length ≤ 99 := by simp at hroom; omega
        simp only [log_metrics_go, hh, if_pos]
        rw [metricsAppend_no_evict ms _ h99]
        refine ih (ms ++ [mkSnapshot ts n (DatabaseNode.get_stats (sr i))]) ?_ x ?_
        · simp at hroom ⊢; omega
        · exact List.mem_append_left _ hx
      · simp only [log_metrics_go, hh, if_neg, Bool.false_eq_true, not_false_iff,
          ite_false]
        refine ih ms ?_ x hx
        simp at hroom; omega

/-- A healthy node whose stats query fails still contributes its snapshot —
with `stats = none` — to the result of the metrics pass (as long as there
is room, so it cannot be evicted again within the same pass). -/
theorem log_metrics_go_mem_of_failed_stats (ts : Nat) (sr : Nat → Option StatsRow) :
    ∀ (l : List (Nat × DatabaseNode)) (ms : List MetricSnapshot),
    ms.length + l.length ≤ 100 →
    ∀ i n, (i, n) ∈ l → n.is_healthy = true → sr i = none →
    mkSnapshot ts n none ∈ log_metrics_go ts sr l ms := by
  intro l
  induction l with
  | nil => intro ms _ i n hmem; cases hmem
  | cons p rest ih =>
      intro ms hroom i n hmem hh hfail
      obtain ⟨j, k⟩ := p
      rcases List.mem_cons.mp hmem with heq | htail
      · obtain ⟨hi, hn⟩ := Prod.mk.injEq .. ▸ heq
        subst hi; subst hn
        simp only [log_metrics_go, hh, if_pos, hfail]
        have h99 : ms.length ≤ 99 := by simp at hroom; omega
        rw [metricsAppend_no_evict ms _ h99]
        refine log_metrics_go_preserves_mem ts sr rest
          (ms ++ [mkSnapshot ts n (DatabaseNode.get_stats none)]) ?_ _ ?_
        · simp at hroom ⊢; omega
        · simp [DatabaseNode.get_stats]
      · by_cases hhk : k.is_healthy
        · simp only [log_metrics_go, hhk, if_pos]
          have h99 : ms.length ≤ 99 := by simp at hroom; omega
          rw [metricsAppend_no_evict ms _ h99]
          refine ih (ms ++ [mkSnapshot ts k (DatabaseNode.get_stats (sr j))]) ?_ i n htail hh hfail
          simp at hroom ⊢; omega
        · simp only [log_metrics_go, hhk, Bool.false_eq_true, not_false_iff,
            ite_false]
          refine ih ms ?_ i n htail hh hfail
          simp at hroom; omega

/-- Claim C3 amended: on a monitoring tick, a currently-healthy node whose
stats retrieval fails still has a MetricSnapshot appended for that tick —
carrying its name, role, health and lag, with the driver counters absent
(`stats = none`), not recorded as zeros.  (The room hypothesis keeps the
snapshot from being evicted again later in the same tick.) -/
theorem C3_failed_stats_snapshot_still_appended
    (c : DisasterRecoveryOrchestrator) (ts : Nat) (sr : Nat → Option StatsRow)
    (hroom : c.metrics.length + c.nodes.length ≤ 100)
    (i : Nat) (n : DatabaseNode) (hmem : (i, n) ∈ c.nodes.enum)
    (hh : n.is_healthy = true) (hfail : sr i = none) :
    mkSnapshot ts n none ∈ (c.log_metrics ts sr).metrics := by
  unfold DisasterRecoveryOrchestrator.log_metrics
  refine log_metrics_go_mem_of_failed_stats ts sr c.nodes.enum c.metrics ?_ i n hmem hh hfail
  simpa using hroom

/-- Claim C3 counterexample: a healthy node whose stats query fails on this
tick is not skipped — `log_metrics` still appends one snapshot for it (with
no driver counters), so the history grows from 0 to 1 entries. -/
theorem C3_counterexample :
    (oneNodeOrch.log_metrics 0 (fun _ => none)).metrics
      = [mkSnapshot 0 nodeS1 none] := rfl

/-- Witness for C3 amended, on the same one-node cluster: the snapshot with
absent stats is in the resulting history. -/
theorem C3_failed_stats_snapshot_still_appended_witness :
    mkSnapshot 0 nodeS1 none ∈ (oneNodeOrch.log_metrics 0 (fun _ => none)).metrics :=
  C3_failed_stats_snapshot_still_appended oneNodeOrch 0 (fun _ => none)
    (by simp [oneNodeOrch, DisasterRecoveryOrchestrator.init,
      DisasterRecoveryOrchestrator.add_node, nodeS1, DatabaseNode.init])
    0 nodeS1
    (by simp [oneNodeOrch, DisasterRecoveryOrchestrator.init,
      DisasterRecoveryOrchestrator.add_node, nodeS1, DatabaseNode.init,
      List.enum, List.enumFrom])
    rfl rfl

/-- Setting a position of a list to the value it already holds is the
identity. -/
theorem set_of_mem_eq {α : Type} : ∀ (l : List α) (i : Nat) (a : α),
    l.get? i = some a → l.set i a = l := by
  intro l
  induction l with
  | nil => intro i a h; simp at h
  | cons b t ih =>
      intro i a h
      cases i with
      | zero =>
          rw [List.get?_cons_zero] at h
          obtain rfl : b = a := Option.some.inj h
          simp
      | succ j =>
          rw [List.get?_cons_succ] at h
          simp [ih j a h]

/-- How `countP` changes under `set`: the element's contribution is swapped
for the new value's contribution. -/
theorem countP_set_some {α : Type} (p : α → Bool) :
    ∀ (l : List α) (i : Nat) (a x : α), l.get? i = some x →
    (l.set i a).countP p + (if p x then 1 else 0)
      = l.countP p + (if p a then 1 else 0) := by
  intro l
  induction l with
  | nil => intro i a x h; simp at h
  | cons b t ih =>
      intro i a x h
      cases i with
      | zero =>
          rw [List.get?_cons_zero] at h
          obtain rfl : b = x := Option.some.inj h
          simp only [List.set_cons_zero, List.countP_cons]
          by_cases hpa : p a <;> by_cases hpb : p b <;> simp [hpa, hpb] <;> omega
      | succ j =>
          rw [List.get?_cons_succ] at h
          have hrec := ih j a x h
          simp only [List.set_cons_succ, List.countP_cons]
          by_cases hpx : p x <;> by_cases hpa : p a <;> by_cases hpb : p b <;>
            simp [hpx, hpa, hpb] at hrec ⊢ <;> omega

/-- `get_replication_lag` only ever writes the lag field: identity, role,
health and connection are untouched on every path. -/
theorem get_replication_lag_fields (node : DatabaseNode)
    (q : Except Unit (Option Rat)) :
    (node.get_replication_lag q).2.name = node.name ∧
    (node.get_replication_lag q).2.is_primary = node.is_primary ∧
    (node.get_replication_lag q).2.is_healthy = node.is_healthy ∧
    (node.get_replication_lag q).2.hasConnection = node.hasConnection := by
  unfold DatabaseNode.get_replication_lag
  by_cases hp : node.is_primary <;> cases q <;> simp [hp]

/-- Roles after a `setNode` are the old roles with one position updated. -/
theorem rolesOf_setNode (c : DisasterRecoveryOrchestrator) (i : Nat)
    (n : DatabaseNode) :
    rolesOf (setNode c i n) = (rolesOf c).set i n.is_primary := by
  simp [rolesOf, setNode, List.map_set]

/-- Overwriting a node with one holding the same role keeps the roles list
unchanged. -/
theorem rolesOf_setNode_same_role (c : DisasterRecoveryOrchestrator) (i : Nat)
    (n n' : DatabaseNode) (hget : c.nodes.get? i = some n)
    (hrole : n'.is_primary = n.is_primary) :
    rolesOf (setNode c i n') = rolesOf c := by
  rw [rolesOf_setNode, hrole]
  have hg : (rolesOf c).get? i = some n.is_primary := by
    rw [rolesOf, List.get?_eq_getElem?, List.getElem?_map,
      ← List.get?_eq_getElem?, hget]
    rfl
  exact set_of_mem_eq _ i _ hg

/-- The catch-up polling loop only rewrites the candidate's lag field: node
count, roles, the primary reference, the guard flag and the metrics are all
invariant, for the final state and for every traced intermediate state. -/
theorem catchup_wait_invariants (idx : Nat) (lr : Nat → Except Unit (Option Rat)) :
    ∀ (fuel : Nat) (c : DisasterRecoveryOrchestrator) (iter waited : Nat),
    (catchup_wait idx lr fuel c iter waited).1.nodes.length = c.nodes.length ∧
    rolesOf (catchup_wait idx lr fuel c iter waited).1 = rolesOf c ∧
    (catchup_wait idx lr fuel c iter waited).1.primary_node = c.primary_node ∧
    (catchup_wait idx lr fuel c iter waited).1.failover_in_progress
      = c.failover_in_progress ∧
    ∀ s ∈ (catchup_wait idx lr fuel c iter waited).2.2.2,
      rolesOf s = rolesOf c ∧ s.primary_node = c.primary_node ∧
      s.failover_in_progress = c.failover_in_progress := by
  intro fuel
  induction fuel with
  | zero => intro c iter waited; simp [catchup_wait]
  | succ fuel ih =>
      intro c iter waited
      unfold catchup_wait
      cases hget : c.nodes.get? idx with
      | none => simp
      | some node =>
          simp only
          by_cases hcond : 1 < node.replication_lag ∧ waited < 30
          · rw [if_pos hcond]
            have hroles : rolesOf (setNode c idx (node.get_replication_lag (lr iter)).2)
                = rolesOf c :=
              rolesOf_setNode_same_role c idx node _ hget
                (get_replication_lag_fields node (lr iter)).2.1
            have hlen : (setNode c idx (node.get_replication_lag (lr iter)).2).nodes.length
                = c.nodes.length := by simp [setNode]
            obtain ⟨ih1, ih2, ih3, ih4, ih5⟩ :=
              ih (setNode c idx (node.get_replication_lag (lr iter)).2) (iter + 1) (waited + 2)
            refine ⟨by rw [ih1, hlen], by rw [ih2, hroles], by rw [ih3]; rfl,
              by rw [ih4]; rfl, ?_⟩
            intro s hs
            rcases List.mem_cons.mp hs with hs | hs
            · subst hs
              exact ⟨hroles, rfl, rfl⟩
            · obtain ⟨h1, h2, h3⟩ := ih5 s hs
              exact ⟨by rw [h1, hroles], by rw [h2]; rfl, by rw [h3]; rfl⟩
          · rw [if_neg hcond]; simp

/-- Loop-counter arithmetic of the catch-up loop: `waited` advances by
exactly 2 per executed pass, and starting from an even `waited ≤ 30` the
guard `waited < 30` keeps the final `waited` at 30 or below. -/
theorem catchup_wait_counters (idx : Nat) (lr : Nat → Except Unit (Option Rat)) :
    ∀ (fuel : Nat) (c : DisasterRecoveryOrchestrator) (iter waited : Nat),
    iter ≤ (catchup_wait idx lr fuel c iter waited).2.1 ∧
    (catchup_wait idx lr fuel c iter waited).2.2.1
      = waited + 2 * ((catchup_wait idx lr fuel c iter waited).2.1 - iter) ∧
    (2 ∣ waited → waited ≤ 30 →
      (catchup_wait idx lr fuel c iter waited).2.2.1 ≤ 30) := by
  intro fuel
  induction fuel with
  | zero => intro c iter waited; simp [catchup_wait]
  | succ fuel ih =>
      intro c iter waited
      unfold catchup_wait
      cases hget : c.nodes.get? idx with
      | none => simp
      | some node =>
          simp only
          by_cases hcond : 1 < node.replication_lag ∧ waited < 30
          · rw [if_pos hcond]
            dsimp only
            obtain ⟨ih1, ih2, ih3⟩ :=
              ih (setNode c idx (node.get_replication_lag (lr iter)).2) (iter + 1) (waited + 2)
            refine ⟨by omega, by omega, ?_⟩
            intro hdvd h30
            have hlt := hcond.2
            exact ih3 (by omega) (by omega)
          · rw [if_neg hcond]; simp

/-- Claim C7: entered with the guard down, every terminal path of
`trigger_failover` — no-healthy-standby abort, promotion failure, promotion
success — returns with `failover_in_progress = false`; the flag is never
left stuck true after the attempt ends. -/
theorem C7_guard_always_cleared (c : DisasterRecoveryOrchestrator)
    (lr : Nat → Except Unit (Option Rat)) (promoteOk : Bool)
    (hflag : c.failover_in_progress = false) :
    (c.trigger_failover lr promoteOk).1.failover_in_progress = false := by
  unfold DisasterRecoveryOrchestrator.trigger_failover
  rw [if_neg (by simp [hflag])]
  dsimp only
  split
  · rfl
  · split
    · rfl
    · split
      · rfl
      · rfl

/-- Witness for C7: the two-node demo cluster enters with the guard down and
the failover returns with the guard down. -/
theorem C7_guard_always_cleared_witness :
    demoOrch.failover_in_progress = false ∧
    (demoOrch.trigger_failover (fun _ => Except.error ()) true).1.failover_in_progress
      = false :=
  ⟨rfl, C7_guard_always_cleared demoOrch (fun _ => Except.error ()) true rfl⟩

/-- Membership in the eligible-standby positions, unfolded. -/
theorem mem_eligible_iff (nodes : List DatabaseNode) (i : Nat) :
    i ∈ eligible_standbys nodes ↔
    ∃ n, nodes.get? i = some n ∧ n.is_primary = false ∧ n.is_healthy = true := by
  unfold eligible_standbys
  rw [List.mem_filter, List.mem_range]
  constructor
  · rintro ⟨hlt, hp⟩
    cases hg : nodes.get? i with
    | none => rw [hg] at hp; simp at hp
    | some n =>
        rw [hg] at hp
        simp at hp
        exact ⟨n, rfl, hp.1, hp.2⟩
  · rintro ⟨n, hg, hp, hh⟩
    have hlt : i < nodes.length := by
      by_contra hge
      rw [List.get?_eq_none.mpr (by omega)] at hg
      cases hg
    refine ⟨hlt, ?_⟩
    rw [hg]
    simp [hp, hh]

/-- Eligible positions index into the registry. -/
theorem mem_eligible_lt (nodes : List DatabaseNode) (i : Nat)
    (h : i ∈ eligible_standbys nodes) : i < nodes.length := by
  obtain ⟨n, hg, -, -⟩ := (mem_eligible_iff nodes i).mp h
  by_contra hge
  rw [List.get?_eq_none.mpr (by omega)] at hg
  cases hg

/-- When some standby is eligible the sorted candidate list is non-empty. -/
theorem sorted_standbys_ne_nil (nodes : List DatabaseNode)
    (h : eligible_standbys nodes ≠ []) : sorted_standbys nodes ≠ [] := by
  unfold sorted_standbys
  intro hcon
  have hperm := List.mergeSort_perm (eligible_standbys nodes)
    (fun i j => decide (lagAt nodes i ≤ lagAt nodes j))
  rw [hcon] at hperm
  exact h hperm.nil_eq.symm

/-- Every element of the sorted candidate list is an eligible position. -/
theorem mem_of_mem_sorted_standbys (nodes : List DatabaseNode) (i : Nat)
    (h : i ∈ sorted_standbys nodes) : i ∈ eligible_standbys nodes := by
  unfold sorted_standbys at h
  exact List.mem_mergeSort.mp h

/-- Claim C6: when every lag re-measurement answered by the driver stays
above 1.0s, the catch-up loop performs at most 15 passes (elapsed wait at
most 30s) and the machine still invokes `pg_promote` on the candidate — the
timeout never aborts the failover attempt. -/
theorem C6_timeout_bounded_and_proceeds (c : DisasterRecoveryOrchestrator)
    (lr : Nat → Except Unit (Option Rat)) (promoteOk : Bool)
    (hflag : c.failover_in_progress = false)
    (helig : eligible_standbys c.nodes ≠ [])
    (hstuck : ∀ i, ∃ v : Rat, lr i = Except.ok (some v) ∧ 1 < v) :
    (c.trigger_failover lr promoteOk).2.2.iterations ≤ 15 ∧
    (c.trigger_failover lr promoteOk).2.2.waited ≤ 30 ∧
    (c.trigger_failover lr promoteOk).2.2.promote_invoked = true := by
  unfold DisasterRecoveryOrchestrator.trigger_failover
  rw [if_neg (by simp [hflag])]
  dsimp only
  cases hsort : sorted_standbys c.nodes with
  | nil => exact absurd hsort (sorted_standbys_ne_nil c.nodes helig)
  | cons idx rest =>
      dsimp only
      have hidx : idx < c.nodes.length :=
        mem_eligible_lt c.nodes idx
          (mem_of_mem_sorted_standbys c.nodes idx (by rw [hsort]; exact List.mem_cons_self _ _))
      have hlen := (catchup_wait_invariants idx lr 16
        { c with failover_in_progress := true } 0 0).1
      obtain ⟨hc1, hc2, hc3⟩ := catchup_wait_counters idx lr 16
        { c with failover_in_progress := true } 0 0
      have hw30 : (catchup_wait idx lr 16
          { c with failover_in_progress := true } 0 0).2.2.1 ≤ 30 :=
        hc3 ⟨0, rfl⟩ (by omega)
      have hit15 : (catchup_wait idx lr 16
          { c with failover_in_progress := true } 0 0).2.1 ≤ 15 := by omega
      cases hget : (catchup_wait idx lr 16
          { c with failover_in_progress := true } 0 0).1.nodes.get? idx with
      | none =>
          exfalso
          rw [List.get?_eq_none] at hget
          rw [hlen] at hget
          simp at hget
          omega
      | some cand =>
          dsimp only
          by_cases hpr : (cand.promote_to_primary promoteOk).1
          · rw [if_pos hpr]
            exact ⟨hit15, hw30, rfl⟩
          · rw [if_neg hpr]
            exact ⟨hit15, hw30, rfl⟩

/-- Witness for C6: the `P`/`S5` cluster whose candidate lag is pinned at
5.0s by every re-measurement; the loop stays within its bounds and the
candidate is still promoted. -/
theorem C6_timeout_bounded_and_proceeds_witness :
    slowOrch.failover_in_progress = false ∧
    eligible_standbys slowOrch.nodes ≠ [] ∧
    (slowOrch.trigger_failover (fun _ => Except.ok (some 5)) true).2.2.iterations ≤ 15 ∧
    (slowOrch.trigger_failover (fun _ => Except.ok (some 5)) true).2.2.waited ≤ 30 ∧
    (slowOrch.trigger_failover (fun _ => Except.ok (some 5)) true).2.2.promote_invoked
      = true := by
  have h := C6_timeout_bounded_and_proceeds slowOrch
    (fun _ => Except.ok (some 5)) true rfl (by decide)
    (fun i => ⟨5, rfl, by norm_num⟩)
  exact ⟨rfl, by decide, h.1, h.2.1, h.2.2⟩

/-- Clusters with the same role list have the same number of primaries. -/
theorem primaryCount_congr (s t : DisasterRecoveryOrchestrator)
    (h : rolesOf s = rolesOf t) : primaryCount s = primaryCount t := by
  have hs : primaryCount s = (rolesOf s).countP (fun b => b) := by
    rw [rolesOf, List.countP_map]; rfl
  have ht : primaryCount t = (rolesOf t).countP (fun b => b) := by
    rw [rolesOf, List.countP_map]; rfl
  rw [hs, ht, h]

/-- Equal role lists give position-wise equal roles. -/
theorem roles_get_congr (s t : DisasterRecoveryOrchestrator)
    (h : rolesOf s = rolesOf t) (i : Nat) :
    (s.nodes.get? i).map (fun n => n.is_primary)
      = (t.nodes.get? i).map (fun n => n.is_primary) := by
  have h2 := congrArg (fun l => l.get? i) h
  simp only [rolesOf] at h2
  rw [List.get?_eq_getElem?, List.get?_eq_getElem?, List.getElem?_map,
    List.getElem?_map] at h2
  rw [List.get?_eq_getElem?, List.get?_eq_getElem?]
  exact h2

/-- Promoting a standby object in place raises the primary count by one. -/
theorem primaryCount_setNode_promote (c : DisasterRecoveryOrchestrator)
    (i : Nat) (n n' : DatabaseNode) (hg : c.nodes.get? i = some n)
    (hn : n.is_primary = false) (hn' : n'.is_primary = true) :
    primaryCount (setNode c i n') = primaryCount c + 1 := by
  have h := countP_set_some (fun k => k.is_primary) c.nodes i n' n hg
  simp only [hn, hn'] at h
  simp at h
  simpa [primaryCount, setNode] using h

/-- Demoting a primary object in place lowers the primary count by one. -/
theorem primaryCount_setNode_demote (c : DisasterRecoveryOrchestrator)
    (i : Nat) (n n' : DatabaseNode) (hg : c.nodes.get? i = some n)
    (hn : n.is_primary = true) (hn' : n'.is_primary = false) :
    primaryCount (setNode c i n') + 1 = primaryCount c := by
  have h := countP_set_some (fun k => k.is_primary) c.nodes i n' n hg
  simp only [hn, hn'] at h
  simp at h
  simpa [primaryCount, setNode] using h

/-- Claim C2 amended: entering `trigger_failover` with the guard down on a
cluster holding exactly one primary (referenced by `primary_node`), every
intermediate state of the run has between one and two primaries — the count
transiently reaches two (between the candidate's promotion and the old
primary's demotion) and never drops to zero. -/
theorem C2_transient_two_primaries_never_zero
    (c : DisasterRecoveryOrchestrator)
    (lr : Nat → Except Unit (Option Rat)) (promoteOk : Bool) (p : Nat)
    (np : DatabaseNode)
    (hflag : c.failover_in_progress = false)
    (hone : primaryCount c = 1)
    (hpn : c.primary_node = some p)
    (hgetp : c.nodes.get? p = some np)
    (hnp : np.is_primary = true) :
    ∀ s ∈ (c.trigger_failover lr promoteOk).2.1,
      1 ≤ primaryCount s ∧ primaryCount s ≤ 2 := by
  have hb1 : ∀ s : DisasterRecoveryOrchestrator, rolesOf s = rolesOf c →
      1 ≤ primaryCount s ∧ primaryCount s ≤ 2 := by
    intro s h
    have := (primaryCount_congr s c h).trans hone
    omega
  have hb2 : ∀ s : DisasterRecoveryOrchestrator, primaryCount s = 2 →
      1 ≤ primaryCount s ∧ primaryCount s ≤ 2 := by
    intro s h; omega
  have hb3 : ∀ s : DisasterRecoveryOrchestrator, primaryCount s = 1 →
      1 ≤ primaryCount s ∧ primaryCount s ≤ 2 := by
    intro s h; omega
  unfold DisasterRecoveryOrchestrator.trigger_failover
  rw [if_neg (by simp [hflag])]
  dsimp only
  cases hsort : sorted_standbys c.nodes with
  | nil =>
      dsimp only
      intro s hs
      rcases List.mem_cons.mp hs with rfl | hs
      · exact hb1 _ rfl
      rcases List.mem_cons.mp hs with rfl | hs
      · exact hb1 _ rfl
      · cases hs
  | cons idx rest =>
      dsimp only
      have hidxelig : idx ∈ eligible_standbys c.nodes :=
        mem_of_mem_sorted_standbys c.nodes idx
          (by rw [hsort]; exact List.mem_cons_self _ _)
      obtain ⟨n0, hgn0, hn0p, hn0h⟩ := (mem_eligible_iff c.nodes idx).mp hidxelig
      obtain ⟨hlen, hroles, hpn2, hfl, htrace⟩ :=
        catchup_wait_invariants idx lr 16 { c with failover_in_progress := true } 0 0
      have hrolesc : rolesOf (catchup_wait idx lr 16
          { c with failover_in_progress := true } 0 0).1 = rolesOf c := hroles
      cases hget : (catchup_wait idx lr 16
          { c with failover_in_progress := true } 0 0).1.nodes.get? idx with
      | none =>
          dsimp only
          intro s hs
          rcases List.mem_cons.mp hs with rfl | hs
          · exact hb1 _ rfl
          rcases List.mem_append.mp hs with hs | hs
          · exact hb1 _ (htrace s hs).1
          rcases List.mem_cons.mp hs with rfl | hs
          · exact hb1 _ hrolesc
          · cases hs
      | some cand =>
          dsimp only
          have hcand : cand.is_primary = false := by
            have h := roles_get_congr _ c hrolesc idx
            rw [hget, hgn0] at h
            simpa [hn0p] using h
          by_cases hpr : (cand.promote_to_primary promoteOk).1
          · rw [if_pos hpr]
            dsimp only
            have hok : promoteOk = true := by
              cases promoteOk
              · simp [DatabaseNode.promote_to_primary] at hpr
              · rfl
            have hprom : (cand.promote_to_primary promoteOk).2.is_primary = true := by
              rw [hok]; rfl
            have hcnt2 : primaryCount (catchup_wait idx lr 16
                { c with failover_in_progress := true } 0 0).1 = 1 :=
              (primaryCount_congr _ c hrolesc).trans hone
            have hcnt3 : primaryCount (setNode (catchup_wait idx lr 16
                { c with failover_in_progress := true } 0 0).1 idx
                (cand.promote_to_primary promoteOk).2) = 2 := by
              rw [primaryCount_setNode_promote _ idx cand _ hget hcand hprom, hcnt2]
            have hpn3 : (catchup_wait idx lr 16
                { c with failover_in_progress := true } 0 0).1.primary_node = some p := by
              rw [hpn2]; exact hpn
            rw [hpn3]
            dsimp only
            have hne : p ≠ idx := by
              intro h
              subst h
              rw [hgetp] at hgn0
              obtain rfl := Option.some.inj hgn0
              rw [hnp] at hn0p
              cases hn0p
            have hgetp4 : (setNode (catchup_wait idx lr 16
                { c with failover_in_progress := true } 0 0).1 idx
                (cand.promote_to_primary promoteOk).2).nodes.get? p
                = (catchup_wait idx lr 16
                   { c with failover_in_progress := true } 0 0).1.nodes.get? p := by
              show ((catchup_wait idx lr 16
                { c with failover_in_progress := true } 0 0).1.nodes.set idx
                (cand.promote_to_primary promoteOk).2).get? p = _
              rw [List.get?_eq_getElem?, List.get?_eq_getElem?]
              exact List.getElem?_set_ne (Ne.symm hne)
            have hrp := roles_get_congr _ c hrolesc p
            rw [hgetp] at hrp
            obtain ⟨onode, hgon, honp⟩ : ∃ onode,
                (catchup_wait idx lr 16
                  { c with failover_in_progress := true } 0 0).1.nodes.get? p
                  = some onode ∧ onode.is_primary = true := by
              cases hx : (catchup_wait idx lr 16
                  { c with failover_in_progress := true } 0 0).1.nodes.get? p with
              | none => rw [hx] at hrp; simp at hrp
              | some o =>
                  rw [hx] at hrp
                  simp at hrp
                  exact ⟨o, rfl, by rw [hrp, hnp]⟩
            rw [hgetp4.trans hgon]
            dsimp only
            have hgon4 : ({ setNode (catchup_wait idx lr 16
                { c with failover_in_progress := true } 0 0).1 idx
                (cand.promote_to_primary promoteOk).2 with
                primary_node := some idx } :
                DisasterRecoveryOrchestrator).nodes.get? p = some onode :=
              hgetp4.trans hgon
            have hcnt5 : primaryCount (setNode ({ setNode (catchup_wait idx lr 16
                { c with failover_in_progress := true } 0 0).1 idx
                (cand.promote_to_primary promoteOk).2 with
                primary_node := some idx } : DisasterRecoveryOrchestrator) p
                { onode with is_primary := false }) = 1 := by
              have hd := primaryCount_setNode_demote
                ({ setNode (catchup_wait idx lr 16
                  { c with failover_in_progress := true } 0 0).1 idx
                  (cand.promote_to_primary promoteOk).2 with
                  primary_node := some idx } : DisasterRecoveryOrchestrator) p
                onode { onode with is_primary := false } hgon4 honp rfl
              have hc4 : primaryCount ({ setNode (catchup_wait idx lr 16
                  { c with failover_in_progress := true } 0 0).1 idx
                  (cand.promote_to_primary promoteOk).2 with
                  primary_node := some idx } : DisasterRecoveryOrchestrator) = 2 := hcnt3
              omega
            intro s hs
            rcases List.mem_cons.mp hs with rfl | hs
            · exact hb1 _ rfl
            rcases List.mem_append.mp hs with hs | hs
            · exact hb1 _ (htrace s hs).1
            rcases List.mem_cons.mp hs with rfl | hs
            · exact hb2 _ hcnt3
            rcases List.mem_cons.mp hs with rfl | hs
            · exact hb2 _ hcnt3
            rcases List.mem_cons.mp hs with rfl | hs
            · exact hb3 _ hcnt5
            rcases List.mem_cons.mp hs with rfl | hs
            · exact hb3 _ hcnt5
            · cases hs
          · rw [if_neg hpr]
            dsimp only
            intro s hs
            rcases List.mem_cons.mp hs with rfl | hs
            · exact hb1 _ rfl
            rcases List.mem_append.mp hs with hs | hs
            · exact hb1 _ (htrace s hs).1
            rcases List.mem_cons.mp hs with rfl | hs
            · exact hb1 _ hrolesc
            · cases hs

/-- Claim C2 counterexample: on the `P`/`S2` cluster the state traced right
after the candidate's successful promotion (position 1 of the trace) holds
two primaries — the count does reach two during an in-flight failover,
because the old primary is only demoted afterwards. -/
theorem C2_counterexample :
    primaryCount ((demoOrch.trigger_failover (fun _ => Except.error ()) true).2.1.getD 1
      DisasterRecoveryOrchestrator.init) = 2 ∧
    1 < (demoOrch.trigger_failover (fun _ => Except.error ()) true).2.1.length := by
  exact ⟨by decide, by decide⟩

/-- Witness for C2 amended: the `P`/`S2` cluster enters with one primary and
the state traced right after the guard is raised is within the one-to-two
bound. -/
theorem C2_transient_two_primaries_never_zero_witness :
    primaryCount demoOrch = 1 ∧
    (1 ≤ primaryCount { demoOrch with failover_in_progress := true } ∧
     primaryCount { demoOrch with failover_in_progress := true } ≤ 2) :=
  ⟨by decide,
   C2_transient_two_primaries_never_zero demoOrch (fun _ => Except.error ()) true
     0 nodeP rfl (by decide) rfl rfl rfl
     { demoOrch with failover_in_progress := true } (by decide)⟩

/-- In a strictly increasing list, any two members in order form a sublist. -/
theorem pair_sublist_of_pairwise_lt {l : List Nat} (hl : l.Pairwise (· < ·))
    {a b : Nat} (ha : a ∈ l) (hb : b ∈ l) (hab : a < b) : List.Sublist [a, b] l := by
  induction l with
  | nil => cases ha
  | cons x t ih =>
      rcases List.mem_cons.mp ha with rfl | hat
      · have hbt : b ∈ t := by
          rcases List.mem_cons.mp hb with rfl | h
          · omega
          · exact h
        exact (List.singleton_sublist.mpr hbt).cons₂ a
      · have hxa : x < a := (List.pairwise_cons.mp hl).1 a hat
        have hbt : b ∈ t := by
          rcases List.mem_cons.mp hb with rfl | h
          · omega
          · exact h
        exact (ih (List.pairwise_cons.mp hl).2 hat hbt).cons x

/-- The eligible positions are strictly increasing (registry order). -/
theorem eligible_standbys_pairwise (nodes : List DatabaseNode) :
    (eligible_standbys nodes).Pairwise (· < ·) :=
  List.Pairwise.filter _ (List.pairwise_lt_range _)

/-- The head of the sorted candidate list is an eligible position with
minimal lag, and every eligible position before it in registry order has
strictly greater lag (ties go to the earliest position: stability). -/
theorem sorted_standbys_head_spec (nodes : List DatabaseNode) (idx : Nat)
    (rest : List Nat) (hsort : sorted_standbys nodes = idx :: rest) :
    idx ∈ eligible_standbys nodes ∧
    (∀ j ∈ eligible_standbys nodes, lagAt nodes idx ≤ lagAt nodes j) ∧
    (∀ j ∈ eligible_standbys nodes, j < idx → lagAt nodes idx < lagAt nodes j) := by
  have htrans : ∀ a b c' : Nat, decide (lagAt nodes a ≤ lagAt nodes b) →
      decide (lagAt nodes b ≤ lagAt nodes c') →
      decide (lagAt nodes a ≤ lagAt nodes c') := by
    intro a b c' hab hbc
    simp at hab hbc ⊢
    exact le_trans hab hbc
  have htotal : ∀ a b : Nat, decide (lagAt nodes a ≤ lagAt nodes b) ||
      decide (lagAt nodes b ≤ lagAt nodes a) := by
    intro a b
    simpa using le_total (lagAt nodes a) (lagAt nodes b)
  have hmem : idx ∈ eligible_standbys nodes :=
    mem_of_mem_sorted_standbys nodes idx
      (by rw [hsort]; exact List.mem_cons_self _ _)
  refine ⟨hmem, ?_, ?_⟩
  · intro j hj
    have hjs : j ∈ sorted_standbys nodes := by
      unfold sorted_standbys
      exact List.mem_mergeSort.mpr hj
    rw [hsort] at hjs
    rcases List.mem_cons.mp hjs with rfl | hjrest
    · exact le_refl _
    · have hsorted := List.sorted_mergeSort htrans htotal (eligible_standbys nodes)
      rw [show List.mergeSort (eligible_standbys nodes)
          (fun i j => decide (lagAt nodes i ≤ lagAt nodes j)) = idx :: rest
        from hsort] at hsorted
      have := (List.pairwise_cons.mp hsorted).1 j hjrest
      simpa using this
  · intro j hj hlt
    by_contra hnot
    push_neg at hnot
    have hsub : List.Sublist [j, idx] (eligible_standbys nodes) :=
      pair_sublist_of_pairwise_lt (eligible_standbys_pairwise nodes) hj hmem hlt
    have hsub2 : List.Sublist [j, idx] (sorted_standbys nodes) := by
      unfold sorted_standbys
      exact List.pair_sublist_mergeSort htrans htotal (by simpa using hnot) hsub
    rw [hsort] at hsub2
    have hnodup : (idx :: rest).Nodup := by
      rw [← hsort]
      unfold sorted_standbys
      exact (List.mergeSort_perm _ _).nodup_iff.mpr
        ((eligible_standbys_pairwise nodes).imp (fun h => Nat.ne_of_lt h))
    have hne : j ≠ idx := Nat.ne_of_lt hlt
    cases hsub2 with
    | cons a h =>
        have hidxrest : idx ∈ rest := h.subset (by simp)
        exact (List.nodup_cons.mp hnodup).1 hidxrest
    | cons₂ a h => exact hne rfl

/-- Claim C5: when the set of eligible standbys (standby role, healthy) is
non-empty, `trigger_failover` selects the eligible standby with minimal
replication lag, and among equal-lag eligible standbys the one earliest in
registry insertion order (stable ascending sort): every eligible position
before the selected one carries strictly greater lag. -/
theorem C5_selects_min_lag_stable (c : DisasterRecoveryOrchestrator)
    (lr : Nat → Except Unit (Option Rat)) (promoteOk : Bool)
    (hflag : c.failover_in_progress = false)
    (helig : eligible_standbys c.nodes ≠ []) :
    ∃ idx, (c.trigger_failover lr promoteOk).2.2.selected = some idx ∧
      idx ∈ eligible_standbys c.nodes ∧
      (∀ j ∈ eligible_standbys c.nodes, lagAt c.nodes idx ≤ lagAt c.nodes j) ∧
      (∀ j ∈ eligible_standbys c.nodes, j < idx → lagAt c.nodes idx < lagAt c.nodes j) := by
  unfold DisasterRecoveryOrchestrator.trigger_failover
  rw [if_neg (by simp [hflag])]
  dsimp only
  cases hsort : sorted_standbys c.nodes with
  | nil => exact absurd hsort (sorted_standbys_ne_nil c.nodes helig)
  | cons idx rest =>
      dsimp only
      obtain ⟨hmem, hmin, hstrict⟩ := sorted_standbys_head_spec c.nodes idx rest hsort
      refine ⟨idx, ?_, hmem, hmin, hstrict⟩
      cases hget : (catchup_wait idx lr 16
          { c with failover_in_progress := true } 0 0).1.nodes.get? idx with
      | none => rfl
      | some cand =>
          dsimp only
          by_cases hpr : (cand.promote_to_primary promoteOk).1
          · rw [if_pos hpr]
          · rw [if_neg hpr]

/-- Witness for C5 at the spec's selection scenario (standby A lag 2s
healthy, B lag 1s healthy, C unhealthy): the machine selects B — position 2,
the healthy standby with the lowest lag. -/
theorem C5_selects_min_lag_stable_witness :
    selOrch.failover_in_progress = false ∧
    eligible_standbys selOrch.nodes ≠ [] ∧
    (selOrch.trigger_failover (fun _ => Except.error ()) true).2.2.selected = some 2 ∧
    lagAt selOrch.nodes 2 ≤ lagAt selOrch.nodes 1 := by
  have hsel2 : (selOrch.trigger_failover (fun _ => Except.error ()) true).2.2.selected
      = some 2 := by decide
  obtain ⟨idx, hsel, hmem, hmin, hstrict⟩ :=
    C5_selects_min_lag_stable selOrch (fun _ => Except.error ()) true rfl (by decide)
  obtain rfl : idx = 2 := Option.some.inj (hsel.symm.trans hsel2)
  exact ⟨rfl, by decide, hsel, hmin 1 (by decide)⟩

/-- Claim C1 amended: `get_replication_lag` returns exactly 0 for every
Primary node and leaves the node (including its stored lag) unchanged;
but promotion does not reset the stored lag field, so the value reported by
`get_cluster_status` and recorded in MetricSnapshots for a node that became
Primary through a failover is its last standby-measured lag, which may be
nonzero. -/
theorem C1_measure_lag_primary_returns_zero (node : DatabaseNode)
    (hp : node.is_primary = true) (q : Except Unit (Option Rat)) :
    node.get_replication_lag q = (0, node) := by
  simp [DatabaseNode.get_replication_lag, hp]

/-- Witness for C1 amended: a primary whose stored lag field holds 5s still
answers 0 from `get_replication_lag`, with the node untouched. -/
theorem C1_measure_lag_primary_returns_zero_witness :
    ({ nodeP with replication_lag := 5 }).get_replication_lag
        (Except.ok (some 3))
      = (0, { nodeP with replication_lag := 5 }) :=
  C1_measure_lag_primary_returns_zero { nodeP with replication_lag := 5 } rfl
    (Except.ok (some 3))

/-- Claim C1 counterexample: after a completed failover on the `P`/`S2`
cluster (candidate lag 0.5s at promotion time), the new Primary's stored lag
still reads 0.5s on both stored-field surfaces — the node entry of
`get_cluster_status` reports `is_primary = true` with `replication_lag` of
0.5s, and the MetricSnapshot logged for it records the same nonzero lag — so
a Primary's ReplicationLag is not reported as 0 by every reporting
surface. -/
theorem C1_counterexample :
    (((demoOrch.trigger_failover (fun _ => Except.error ()) true).1.get_cluster_status
        0).nodes.getD 1
      { name := "", is_primary := false, is_healthy := false,
        replication_lag := 0 }).is_primary = true ∧
    (((demoOrch.trigger_failover (fun _ => Except.error ()) true).1.get_cluster_status
        0).nodes.getD 1
      { name := "", is_primary := false, is_healthy := false,
        replication_lag := 0 }).replication_lag = mkRat 1 2 ∧
    (((demoOrch.trigger_failover (fun _ => Except.error ()) true).1.log_metrics 0
        (fun _ => none)).metrics.getD 0 (sampleSnapshot 0)).is_primary = true ∧
    (((demoOrch.trigger_failover (fun _ => Except.error ()) true).1.log_metrics 0
        (fun _ => none)).metrics.getD 0 (sampleSnapshot 0)).replication_lag
      = mkRat 1 2 :=
  ⟨by decide, by decide, by decide, by decide⟩
